import Mathlib

set_option maxRecDepth 4000

/-!
Verification development for the cloud-managed connector
(`src/connectors/managed.py`, class `Connector`).

The Python code is shallowly embedded below: configuration values become a
JSON-like inductive type, the authorization loaders become total functions on
it, the pagination generator `get_list_of_items` becomes a fuel-indexed loop
producing the trace of yielded records together with a terminal outcome, and
the enrichment / credential-rotation wrappers are built on top of it.
External collaborators (call builder, renderer, HTTP executor, IAM source)
are oracle parameters, matching the boundary drawn in the specification.
-/

/-- Python/JSON-like values as handled by the connector configuration code. -/
inductive PyVal where
  | str (s : String)
  | int (n : Int)
  | bool (b : Bool)
  | none
  | dict (kvs : List (String × PyVal))
  | list (xs : List PyVal)

/-- Python truthiness for the shapes the loaders test (bool(value)). -/
def pyTruthy : PyVal → Bool
  | PyVal.str s => !s.isEmpty
  | PyVal.int n => n != 0
  | PyVal.bool b => b
  | PyVal.none => false
  | PyVal.dict kvs => !kvs.isEmpty
  | PyVal.list xs => !xs.isEmpty

/-- isinstance(value, dict). -/
def pyIsDict : PyVal → Bool
  | PyVal.dict _ => true
  | _ => false

/-- dict.get(k): the first binding of k, if any. -/
def lookupKV : List (String × PyVal) → String → Option PyVal
  | [], _ => Option.none
  | (k, v) :: rest, key => if k == key then some v else lookupKV rest key

/-- dict.get(k, d): lookup with a default. -/
def lookupD (kvs : List (String × PyVal)) (key : String) (d : PyVal) : PyVal :=
  match lookupKV kvs key with
  | some v => v
  | Option.none => d

/-- dict[key] = v: replace the binding in place, or append it. -/
def dset : List (String × PyVal) → String → PyVal → List (String × PyVal)
  | [], key, v => [(key, v)]
  | (k, w) :: rest, key, v =>
    if k == key then (key, v) :: rest else (k, w) :: dset rest key v

/-- Outcome of `Connector.saas_authorization_loader` (managed.py lines 88-122),
on the already-JSON-parsed configuration value.  `keyError` is the uncaught
Python `KeyError` raised by `value['behavior']` when the key is missing. -/
inductive SaasAuthResult where
  | credentialLookup (id : String)
  | sessionGenerated (behavior : PyVal)
  | static (headers params : PyVal)
  | configError
  | keyError

/-- value.get("type") == "session". -/
def isSessionTag : Option PyVal → Bool
  | some (PyVal.str s) => s == "session"
  | _ => false

/-- `Connector.saas_authorization_loader` (managed.py lines 88-122): the
branch structure mirrors the Python `if isinstance(...) / elif / elif / else`
chain on the parsed `saas_authorization` value. -/
def saas_authorization_loader : PyVal → SaasAuthResult
  | PyVal.dict kvs =>
    match lookupKV kvs "credential_id" with
    | some (PyVal.str s) => SaasAuthResult.credentialLookup s
    | _ =>
      if isSessionTag (lookupKV kvs "type") then
        match lookupKV kvs "behavior" with
        | some b => SaasAuthResult.sessionGenerated b
        | Option.none => SaasAuthResult.keyError
      else if (pyIsDict (lookupD kvs "headers" (PyVal.dict []))
                && pyTruthy (lookupD kvs "headers" PyVal.none))
              || (pyIsDict (lookupD kvs "params" (PyVal.dict []))
                && pyTruthy (lookupD kvs "params" PyVal.none)) then
        SaasAuthResult.static (lookupD kvs "headers" (PyVal.dict []))
          (lookupD kvs "params" (PyVal.dict []))
      else SaasAuthResult.configError
  | _ => SaasAuthResult.configError

/-- Shape (a) of the spec: a mapping whose `credential_id` is a string. -/
def credentialShape : PyVal → Option String
  | PyVal.dict kvs =>
    match lookupKV kvs "credential_id" with
    | some (PyVal.str s) => some s
    | _ => Option.none
  | _ => Option.none

/-- Shape (b) guard of the spec: a mapping with `type == "session"`. -/
def sessionShape : PyVal → Bool
  | PyVal.dict kvs => isSessionTag (lookupKV kvs "type")
  | _ => false

/-- The named field is a non-empty mapping. -/
def nonEmptyDictField (v : PyVal) (key : String) : Bool :=
  match v with
  | PyVal.dict kvs =>
    match lookupKV kvs key with
    | some (PyVal.dict inner) => !inner.isEmpty
    | _ => false
  | _ => false

/-- Shape (c) of the spec: non-empty `headers` and/or non-empty `params`. -/
def staticShape (v : PyVal) : Bool :=
  nonEmptyDictField v "headers" || nonEmptyDictField v "params"

/-- The `behavior` entry of a mapping, if the input is a mapping. -/
def behaviorField : PyVal → Option PyVal
  | PyVal.dict kvs => lookupKV kvs "behavior"
  | _ => Option.none

/-- The named entry of a mapping, defaulting to an empty mapping. -/
def fieldOrEmpty (v : PyVal) (key : String) : PyVal :=
  match v with
  | PyVal.dict kvs => lookupD kvs key (PyVal.dict [])
  | _ => PyVal.dict []

/-- The amended C3 reading, written from the spec's shape vocabulary: shapes
(a)/(b)/(c) are tried in that priority; a mapping passing the `session` guard
without a `behavior` key ends in an uncaught key error, every other
unrecognized input (non-mapping inputs included) in a configuration error. -/
def saasAuthAmendedSpec (v : PyVal) : SaasAuthResult :=
  match credentialShape v with
  | some s => SaasAuthResult.credentialLookup s
  | Option.none =>
    if sessionShape v then
      match behaviorField v with
      | some b => SaasAuthResult.sessionGenerated b
      | Option.none => SaasAuthResult.keyError
    else if staticShape v then
      SaasAuthResult.static (fieldOrEmpty v "headers") (fieldOrEmpty v "params")
    else SaasAuthResult.configError

/-- Outcome of `Connector.oomnitza_authorization_loader` (managed.py lines
124-150). `inherited` stands for picking the platform's own configured token. -/
inductive OomAuthResult where
  | verbatim (token : String)
  | inherited
  | cloud (tokenId : PyVal)
  | configError

/-- `Connector.oomnitza_authorization_loader` (managed.py lines 124-150):
non-empty string kept verbatim; falsy value inherits the platform token;
dict with a truthy `token_id` kept as the cloud mapping; otherwise a
configuration error. -/
def oomnitza_authorization_loader : PyVal → OomAuthResult
  | PyVal.str s =>
    if s.isEmpty then OomAuthResult.inherited else OomAuthResult.verbatim s
  | PyVal.dict kvs =>
    if kvs.isEmpty then OomAuthResult.inherited
    else if pyTruthy (lookupD kvs "token_id" PyVal.none) then
      OomAuthResult.cloud (lookupD kvs "token_id" PyVal.none)
    else OomAuthResult.configError
  | v => if pyTruthy v then OomAuthResult.configError else OomAuthResult.inherited

/-- The `token_id` entry of a mapping, if the input is a mapping. -/
def tokenIdField : PyVal → Option PyVal
  | PyVal.dict kvs => lookupKV kvs "token_id"
  | _ => Option.none

/-- The amended C9 reading, written from the spec's vocabulary: a non-empty
string verbatim, any falsy value inherits the platform token, a mapping with
a truthy `token_id` is cloud mode, everything else (including a mapping whose
`token_id` is absent or falsy) is a configuration error. -/
def oomAuthAmendedSpec : PyVal → OomAuthResult
  | PyVal.str s =>
    if s.isEmpty then OomAuthResult.inherited else OomAuthResult.verbatim s
  | v =>
    if !pyTruthy v then OomAuthResult.inherited
    else
      match tokenIdField v with
      | some t =>
        if pyTruthy t then OomAuthResult.cloud t else OomAuthResult.configError
      | Option.none => OomAuthResult.configError

/-- Terminal outcome of one `get_list_of_items` run (managed.py lines
226-314): normal generator end, or one of the four raised, phase-tagged
exceptions. -/
inductive ListOutcome where
  | success
  | emptyInBeginning
  | errorInBeginning (e : String)
  | errorInMiddle (e : String)
  | maxIteration
deriving DecidableEq

variable {α β : Type}

/-- Oracle view of one `get_list_of_items` run.  The rendering context at
iteration n is a deterministic function of the response history, so every
template evaluation and request of iteration n is indexed by n:
`buildExc n` is an exception raised by `build_call_specs` (line 243) if any,
`breakEarly n` the rendered break-early control (line 248), and `page n`
folds the add-if extras, authorization attachment, HTTP request, shim-error
check and the rendered `result` control (lines 251-285) into either a raised
exception or the page's record list. -/
structure ListEnv (α : Type) where
  paginationPresent : Bool
  breakEarly : Nat → Bool
  buildExc : Nat → Option String
  page : Nat → Except String (List α)

def MAX_ITERATIONS : Nat := 1000

/-- The `while iteration < self.MAX_ITERATIONS` loop of `get_list_of_items`
(managed.py lines 242-300) together with the surrounding exception handlers
(lines 302-314).  `n` is the current `iteration`; the fuel argument keeps
`n + fuel = MAX_ITERATIONS`, so running out of fuel is exactly the
`iteration >= self.MAX_ITERATIONS` check after the loop.  The result is the
list of yielded records, the final iteration counter, and the outcome. -/
def listLoop (env : ListEnv α) (skipEmpty : Bool) :
    Nat → Nat → List α × Nat × ListOutcome
  | n, 0 => ([], n, ListOutcome.maxIteration)
  | n, fuel + 1 =>
    match env.buildExc n with
    | some e =>
      ([], n, if n == 0 then ListOutcome.errorInBeginning e
              else ListOutcome.errorInMiddle e)
    | Option.none =>
      if env.paginationPresent && env.breakEarly n then
        ([], n, ListOutcome.success)
      else
        match env.page n with
        | Except.error e =>
          ([], n, if n == 0 then ListOutcome.errorInBeginning e
                  else ListOutcome.errorInMiddle e)
        | Except.ok [] =>
          if n == 0 && !skipEmpty then ([], n, ListOutcome.emptyInBeginning)
          else ([], n, ListOutcome.success)
        | Except.ok (x :: xs) =>
          let rest := listLoop env skipEmpty (n + 1) fuel
          (x :: xs ++ rest.1, rest.2)

/-- `Connector.get_list_of_items` (managed.py lines 226-314): the generator's
full trace, from iteration 0 with the full iteration budget. -/
def get_list_of_items (env : ListEnv α) (skipEmpty : Bool) :
    List α × Nat × ListOutcome :=
  listLoop env skipEmpty 0 MAX_ITERATIONS

/-- Concatenation of the record pages of iterations n, n+1, ..., n+k-1. -/
def pagesFrom (pages : Nat → List α) : Nat → Nat → List α
  | _, 0 => []
  | n, k + 1 => pages n ++ pagesFrom pages (n + 1) k

/-- `Connector.get_detail_of_item` (managed.py lines 329-354).
`hasDetailBehavior` is the truthiness of `self.detail_behavior`;
`detailFetch` folds the context update, call-spec build, authorization and
request (lines 332-345) into the parsed detail response or a raised
exception (re-raised as `ManagedConnectorDetailsGetException`).  Only when
the parsed response is exactly a dict is the original record stored back
under `list_response_item` (lines 346-347). -/
def get_detail_of_item (hasDetailBehavior : Bool)
    (detailFetch : Except String PyVal) (item : PyVal) : Except String PyVal :=
  if hasDetailBehavior then
    match detailFetch with
    | Except.error e => Except.error e
    | Except.ok (PyVal.dict kvs) =>
      Except.ok (PyVal.dict (dset kvs "list_response_item" item))
    | Except.ok obj => Except.ok obj
  else Except.ok item

/-- The per-record try/except/else body of `Connector._load_list` (managed.py
lines 368-380): `enrich` folds detail fetch, software enrichment and SaaS
linkage into one step whose error is one of the three phase-specific
exceptions; each failing record is degraded to a (record, error) pair. -/
def loadListAux (enrich : α → Except String β) :
    List α → List (β ⊕ α × String)
  | [] => []
  | r :: rs =>
    (match enrich r with
     | Except.ok d => Sum.inl d
     | Except.error e => Sum.inr (r, e)) :: loadListAux enrich rs

/-- `Connector._load_list` (managed.py lines 365-380): the enriched stream
over one pagination run, with the run's terminal outcome. -/
def load_list (env : ListEnv α) (skipEmpty : Bool)
    (enrich : α → Except String β) : List (β ⊕ α × String) × ListOutcome :=
  (loadListAux enrich (get_list_of_items env skipEmpty).1,
   (get_list_of_items env skipEmpty).2.2)

/-- Items yielded by `Connector._load_iam_list` (managed.py lines 382-409):
each rotating-credential pass is materialized (`list(...)`, line 392) and
yielded as one list, while the final default pass is yielded record by
record (`yield from`, line 409). -/
inductive IamItem (α β : Type) where
  | passList (items : List (β ⊕ α × String))
  | single (item : β ⊕ α × String)

/-- str(exc) of the exception standing behind a non-success outcome. -/
def outcomeError : ListOutcome → String
  | ListOutcome.errorInBeginning e => e
  | ListOutcome.errorInMiddle e => e
  | ListOutcome.maxIteration => "Reached max iterations"
  | ListOutcome.emptyInBeginning => "empty response in the beginning"
  | ListOutcome.success => ""

/-- The `for iam_credentials in iam.get_iam_credentials()` loop of
`_load_iam_list` (managed.py lines 391-396) with its exception handler
(lines 398-403): each credential set's environment is run through
`_load_list` with `skip_empty_response=True`; a pass that raises yields
nothing for that pass and aborts with a beginning/middle classification
based on the pass counter `it`.  On success returns the yielded pass lists
and the accumulated `iam_records` count. -/
def iamRotLoop (enrich : α → Except String β) :
    List (ListEnv α) → Nat → Nat →
    (List (IamItem α β) × Nat) ⊕ (List (IamItem α β) × ListOutcome)
  | [], _, recs => Sum.inl ([], recs)
  | env :: rest, it, recs =>
    match (load_list env true enrich).2 with
    | ListOutcome.success =>
      (match iamRotLoop enrich rest (it + 1)
          (recs + (load_list env true enrich).1.length) with
       | Sum.inl (items, recs') =>
         Sum.inl (IamItem.passList (load_list env true enrich).1 :: items, recs')
       | Sum.inr (items, out) =>
         Sum.inr (IamItem.passList (load_list env true enrich).1 :: items, out))
    | bad =>
      Sum.inr ([], if it == 0 then ListOutcome.errorInBeginning (outcomeError bad)
                   else ListOutcome.errorInMiddle (outcomeError bad))

/-- `Connector._load_iam_list` (managed.py lines 382-409): the rotating
passes, then one final default pass whose empty-start tolerance is
`iam_records > 0` (line 408). -/
def load_iam_list (credEnvs : List (ListEnv α)) (defaultEnv : ListEnv α)
    (enrich : α → Except String β) : List (IamItem α β) × ListOutcome :=
  match iamRotLoop enrich credEnvs 0 0 with
  | Sum.inr (items, out) => (items, out)
  | Sum.inl (items, recs) =>
    (items ++ (load_list defaultEnv (decide (0 < recs)) enrich).1.map IamItem.single,
     (load_list defaultEnv (decide (0 < recs)) enrich).2)

/-- Total record count of the rotating passes (the final value of
`iam_records` in managed.py lines 384-396). -/
def totalRotRecords (credEnvs : List (ListEnv α))
    (enrich : α → Except String β) : Nat :=
  (credEnvs.map (fun env => (load_list env true enrich).1.length)).sum

/-- Modelled from the spec: `clear_rendering_context` of the Rendering
Context (provided by `lib/api_caller.py`, which is not under src/) — the
spec states keys are "selectively cleared when a key's validity window
ends". -/
def ctxClear : List (String × PyVal) → String → List (String × PyVal)
  | [], _ => []
  | (k, v) :: rest, key =>
    if k == key then ctxClear rest key else (k, v) :: ctxClear rest key

/-- Modelled from the spec: `update_rendering_context` of the Rendering
Context (provided by `lib/api_caller.py`, not under src/) — the spec states
"keys are added/overwritten". -/
def ctxUpdate (ctx : List (String × PyVal)) (key : String) (v : PyVal) :
    List (String × PyVal) :=
  (key, v) :: ctxClear ctx key

/-- The `result.headers` / `result.params` template lists of the stored
session-authorization behavior (managed.py lines 168-175). -/
structure SessionResultTemplates where
  headers : List (String × String)
  params : List (String × String)

/-- `Connector.generate_session_based_secret` (managed.py lines 152-184):
starting from rendering context `ctx`, pushes the session response body and
headers into the context, renders the declared header/param templates
against it, clears the two ephemeral keys, and returns the rendered secret
together with the final context.  `render` is the external Renderer
(`render_to_string`) reading the ambient context; `sessionCtx` is the
context as it stands while the result templates are rendered. -/
def sessionCtx (ctx : List (String × PyVal)) (response responseHeaders : PyVal) :
    List (String × PyVal) :=
  ctxUpdate (ctxUpdate ctx "response" response) "response_headers" responseHeaders

def generate_session_based_secret (ctx : List (String × PyVal))
    (beh : SessionResultTemplates)
    (render : List (String × PyVal) → String → String)
    (response responseHeaders : PyVal) :
    (List (String × String) × List (String × String)) × List (String × PyVal) :=
  ((beh.headers.map
      (fun kv => (kv.1, render (sessionCtx ctx response responseHeaders) kv.2)),
    beh.params.map
      (fun kv => (kv.1, render (sessionCtx ctx response responseHeaders) kv.2))),
   ctxClear (ctxClear (sessionCtx ctx response responseHeaders) "response")
     "response_headers")

/-! ## Helper lemmas -/

theorem nonEmptyDictField_eq (kvs : List (String × PyVal)) (key : String) :
    (pyIsDict (lookupD kvs key (PyVal.dict []))
      && pyTruthy (lookupD kvs key PyVal.none))
    = nonEmptyDictField (PyVal.dict kvs) key := by
  unfold lookupD nonEmptyDictField
  cases h : lookupKV kvs key with
  | none => simp [h, pyIsDict, pyTruthy]
  | some v => cases v <;> simp [h, pyIsDict, pyTruthy]

theorem lookupKV_dset_self (kvs : List (String × PyVal)) (key : String) (v : PyVal) :
    lookupKV (dset kvs key v) key = some v := by
  induction kvs with
  | nil => simp [dset, lookupKV]
  | cons p rest ih =>
    obtain ⟨k, w⟩ := p
    by_cases h : k = key
    · simp [dset, h, lookupKV]
    · simp [dset, h, lookupKV, ih]

theorem lookupKV_ctxClear_self (ctx : List (String × PyVal)) (key : String) :
    lookupKV (ctxClear ctx key) key = Option.none := by
  induction ctx with
  | nil => rfl
  | cons p rest ih =>
    obtain ⟨k, w⟩ := p
    by_cases h : k = key
    · simpa [ctxClear, h] using ih
    · simpa [ctxClear, h, lookupKV] using ih

theorem lookupKV_ctxClear_ne (ctx : List (String × PyVal)) (key k : String)
    (h : k ≠ key) :
    lookupKV (ctxClear ctx key) k = lookupKV ctx k := by
  induction ctx with
  | nil => rfl
  | cons p rest ih =>
    obtain ⟨k', w⟩ := p
    by_cases h' : k' = key
    · have hne : k' ≠ k := fun hk => h (hk ▸ h')
      simp [ctxClear, h', lookupKV, hne, Ne.symm h, ih]
    · by_cases h'' : k' = k
      · simp [ctxClear, h', lookupKV, h'', h, Ne.symm h]
      · simp [ctxClear, h', lookupKV, h'', h, ih]

theorem lookupKV_ctxUpdate_self (ctx : List (String × PyVal)) (key : String)
    (v : PyVal) : lookupKV (ctxUpdate ctx key v) key = some v := by
  simp [ctxUpdate, lookupKV]

theorem lookupKV_ctxUpdate_ne (ctx : List (String × PyVal)) (key k : String)
    (v : PyVal) (h : k ≠ key) :
    lookupKV (ctxUpdate ctx key v) k = lookupKV ctx k := by
  show (if key == k then some v else lookupKV (ctxClear ctx key) k)
    = lookupKV ctx k
  rw [if_neg (by simp [Ne.symm h]), lookupKV_ctxClear_ne ctx key k h]

/-! ## C3: API-side authorization resolution -/

/-- C3 counterexample: the input mapping with `type == "session"` but no
nested `behavior` matches none of the claim's three shapes, yet the loader
raises an uncaught `KeyError` (from `value['behavior']`, managed.py line
112), not the claimed configuration error. -/
theorem c3_counterexample :
    saas_authorization_loader (PyVal.dict [("type", PyVal.str "session")])
      = SaasAuthResult.keyError
    ∧ SaasAuthResult.keyError ≠ SaasAuthResult.configError := by
  refine ⟨rfl, ?_⟩
  intro h
  exact SaasAuthResult.noConfusion h

/-- C3 (amended): `saas_authorization_loader` selects credential lookup for
a mapping whose `credential_id` is a string, session-generated (storing the
behavior) for a mapping with `type == "session"` and a `behavior` key,
static for a mapping with non-empty `headers` and/or `params` mappings; a
mapping with `type == "session"` but no `behavior` raises an uncaught key
error; every other input raises a configuration error naming the
connector — i.e. the loader coincides with the amended spec reading. -/
theorem c3_saas_authorization_modes (v : PyVal) :
    saas_authorization_loader v = saasAuthAmendedSpec v := by
  cases v with
  | dict kvs =>
    simp only [saas_authorization_loader, saasAuthAmendedSpec, credentialShape,
      sessionShape, staticShape, behaviorField, fieldOrEmpty]
    rw [nonEmptyDictField_eq kvs "headers", nonEmptyDictField_eq kvs "params"]
    cases hc : lookupKV kvs "credential_id" with
    | none => simp [hc]
    | some w => cases w <;> simp [hc]
  | str s => rfl
  | int n => rfl
  | bool b => rfl
  | none => rfl
  | list xs => rfl

/-! ## C9: platform-side authorization resolution -/

/-- C9 counterexample: the mapping containing `token_id` bound to 0 is,
per the claim, kept as the cloud-mode mapping, but the loader raises a
configuration error because `value.get("token_id")` is falsy (managed.py
line 145). -/
theorem c9_counterexample :
    oomnitza_authorization_loader (PyVal.dict [("token_id", PyVal.int 0)])
      = OomAuthResult.configError
    ∧ ∀ t, OomAuthResult.configError ≠ OomAuthResult.cloud t := by
  refine ⟨rfl, ?_⟩
  intro t h
  exact OomAuthResult.noConfusion h

/-- C9 (amended): `oomnitza_authorization_loader` keeps a non-empty string
verbatim, replaces an empty/absent (more generally falsy) value by the
platform's own token, keeps a mapping whose `token_id` is truthy as the
cloud-mode mapping, and raises a configuration error for any other shape —
including a mapping whose `token_id` is absent or falsy — i.e. the loader
coincides with the amended spec reading. -/
theorem c9_oomnitza_authorization_modes (v : PyVal) :
    oomnitza_authorization_loader v = oomAuthAmendedSpec v := by
  cases v with
  | str s => rfl
  | dict kvs =>
    unfold oomnitza_authorization_loader oomAuthAmendedSpec tokenIdField lookupD
    cases he : kvs.isEmpty with
    | true => simp [pyTruthy, he]
    | false =>
      cases ht : lookupKV kvs "token_id" with
      | none => simp [pyTruthy, he, ht]
      | some t => simp [pyTruthy, he, ht]
  | int n =>
    unfold oomnitza_authorization_loader oomAuthAmendedSpec tokenIdField
    cases h : pyTruthy (PyVal.int n) <;> simp [h]
  | bool b =>
    unfold oomnitza_authorization_loader oomAuthAmendedSpec tokenIdField
    cases h : pyTruthy (PyVal.bool b) <;> simp [h]
  | none => rfl
  | list xs =>
    unfold oomnitza_authorization_loader oomAuthAmendedSpec tokenIdField
    cases h : pyTruthy (PyVal.list xs) <;> simp [h]

/-! ## C8: detail fetch merging -/

/-- C8 counterexample: with a detail Behavior configured and a non-mapping
detail response, `get_detail_of_item` returns the bare detail response; the
original record (the distinct value `PyVal.str "orig"`) is discarded, not
preserved inside the returned value, contradicting the claim. -/
theorem c8_counterexample :
    get_detail_of_item true (Except.ok (PyVal.str "detail")) (PyVal.str "orig")
      = Except.ok (PyVal.str "detail")
    ∧ PyVal.str "detail" ≠ PyVal.str "orig" := by
  refine ⟨rfl, ?_⟩
  intro h
  injection h with h2
  exact absurd h2 (by decide)

/-- C8 (amended): with no detail Behavior the record passes through
unchanged; with a detail Behavior and a mapping-shaped detail response the
original record is stored back into the response under
`list_response_item` (and is recoverable from it); with a non-mapping
detail response the response is returned as-is, discarding the record; a
failing fetch surfaces as the detail-phase error. -/
theorem c8_detail_merge (item obj : PyVal) (e : String)
    (kvs : List (String × PyVal)) (hobj : pyIsDict obj = false) :
    get_detail_of_item false (Except.ok obj) item = Except.ok item
    ∧ get_detail_of_item true (Except.ok (PyVal.dict kvs)) item
      = Except.ok (PyVal.dict (dset kvs "list_response_item" item))
    ∧ lookupKV (dset kvs "list_response_item" item) "list_response_item"
      = some item
    ∧ get_detail_of_item true (Except.ok obj) item = Except.ok obj
    ∧ get_detail_of_item true (Except.error e) item = Except.error e := by
  refine ⟨rfl, rfl, lookupKV_dset_self kvs "list_response_item" item, ?_, rfl⟩
  cases obj with
  | dict kvs' => exact absurd hobj (by simp [pyIsDict])
  | str s => rfl
  | int n => rfl
  | bool b => rfl
  | none => rfl
  | list xs => rfl

/-- C8 witness: the amended theorem applied at a concrete record, mapping
response, non-mapping response and error. -/
theorem c8_detail_merge_witness :
    get_detail_of_item false (Except.ok (PyVal.str "detail")) (PyVal.str "orig")
      = Except.ok (PyVal.str "orig")
    ∧ get_detail_of_item true (Except.ok (PyVal.dict [("a", PyVal.int 1)]))
        (PyVal.str "orig")
      = Except.ok (PyVal.dict (dset [("a", PyVal.int 1)] "list_response_item"
          (PyVal.str "orig")))
    ∧ lookupKV (dset [("a", PyVal.int 1)] "list_response_item" (PyVal.str "orig"))
        "list_response_item" = some (PyVal.str "orig")
    ∧ get_detail_of_item true (Except.ok (PyVal.str "detail")) (PyVal.str "orig")
      = Except.ok (PyVal.str "detail")
    ∧ get_detail_of_item true (Except.error "boom") (PyVal.str "orig")
      = Except.error "boom" :=
  c8_detail_merge (PyVal.str "orig") (PyVal.str "detail") "boom"
    [("a", PyVal.int 1)] rfl

/-! ## C6: session-secret generation clears its ephemeral keys -/

/-- C6: after a completed `generate_session_based_secret` call the keys
`response` and `response_headers` are absent from the rendering context, so
no later behavior evaluation can observe the session response; and the
returned secret's headers and params were rendered against the intermediate
context that did contain both keys. -/
theorem c6_session_secret_clears_context (ctx : List (String × PyVal))
    (beh : SessionResultTemplates)
    (render : List (String × PyVal) → String → String)
    (response responseHeaders : PyVal) :
    lookupKV (generate_session_based_secret ctx beh render response
      responseHeaders).2 "response" = Option.none
    ∧ lookupKV (generate_session_based_secret ctx beh render response
        responseHeaders).2 "response_headers" = Option.none
    ∧ ∃ ctxAuth,
        lookupKV ctxAuth "response" = some response
        ∧ lookupKV ctxAuth "response_headers" = some responseHeaders
        ∧ (generate_session_based_secret ctx beh render response
            responseHeaders).1.1
          = beh.headers.map (fun kv => (kv.1, render ctxAuth kv.2))
        ∧ (generate_session_based_secret ctx beh render response
            responseHeaders).1.2
          = beh.params.map (fun kv => (kv.1, render ctxAuth kv.2)) := by
  unfold generate_session_based_secret
  refine ⟨?_, ?_, ?_⟩
  · rw [lookupKV_ctxClear_ne _ "response_headers" "response" (by decide)]
    exact lookupKV_ctxClear_self _ "response"
  · exact lookupKV_ctxClear_self _ "response_headers"
  · refine ⟨sessionCtx ctx response responseHeaders, ?_, ?_, rfl, rfl⟩
    · unfold sessionCtx
      rw [lookupKV_ctxUpdate_ne _ "response_headers" "response" _ (by decide)]
      exact lookupKV_ctxUpdate_self _ "response" response
    · exact lookupKV_ctxUpdate_self _ "response_headers" responseHeaders

/-! ## Pagination loop lemmas -/

theorem listLoop_iter_le (env : ListEnv α) (s : Bool) :
    ∀ fuel n, (listLoop env s n fuel).2.1 ≤ n + fuel := by
  intro fuel
  induction fuel with
  | zero => intro n; simp [listLoop]
  | succ f ih =>
    intro n
    simp only [listLoop]
    cases hb : env.buildExc n with
    | some e => simp
    | none =>
      by_cases hbe : (env.paginationPresent && env.breakEarly n) = true
      · simp [hbe]
      · simp only [Bool.not_eq_true] at hbe
        simp only [hbe, Bool.false_eq_true, if_false]
        cases hp : env.page n with
        | error e => simp
        | ok page =>
          cases page with
          | nil =>
            by_cases h0 : (n == 0 && !s) = true
            · simp [h0]
            · simp only [Bool.not_eq_true] at h0
              simp [h0]
          | cons x xs =>
            simp only []
            have := ih (n + 1)
            simp only [Prod.snd] at this ⊢
            omega

theorem listLoop_all_nonempty (env : ListEnv α) (s : Bool) (pages : Nat → List α) :
    ∀ fuel n,
      (∀ m, n ≤ m → m < n + fuel →
        env.buildExc m = Option.none
        ∧ (env.paginationPresent && env.breakEarly m) = false
        ∧ env.page m = Except.ok (pages m) ∧ pages m ≠ []) →
      listLoop env s n fuel
        = (pagesFrom pages n fuel, n + fuel, ListOutcome.maxIteration) := by
  intro fuel
  induction fuel with
  | zero => intro n h; simp [listLoop, pagesFrom]
  | succ f ih =>
    intro n h
    obtain ⟨hb, hbe, hp, hne⟩ := h n (le_refl n) (by omega)
    simp only [listLoop, hb, hbe, Bool.false_eq_true, if_false, hp]
    cases hpn : pages n with
    | nil => exact absurd hpn hne
    | cons x xs =>
      have hrec := ih (n + 1) (fun m h1 h2 => h m (by omega) (by omega))
      simp only [hrec, pagesFrom, hpn]
      refine Prod.ext ?_ (Prod.ext ?_ rfl)
      · simp
      · simp only [Prod.fst, Prod.snd]
        omega

theorem listLoop_empty_at (env : ListEnv α) (s : Bool) (pages : Nat → List α) :
    ∀ k fuel n, k < fuel →
      (∀ m, n ≤ m → m ≤ n + k → env.buildExc m = Option.none) →
      (∀ m, n ≤ m → m ≤ n + k →
        (env.paginationPresent && env.breakEarly m) = false) →
      (∀ m, n ≤ m → m < n + k →
        env.page m = Except.ok (pages m) ∧ pages m ≠ []) →
      env.page (n + k) = Except.ok [] →
      listLoop env s n fuel
        = (pagesFrom pages n k, n + k,
           if (n + k) == 0 && !s then ListOutcome.emptyInBeginning
           else ListOutcome.success) := by
  intro k
  induction k with
  | zero =>
    intro fuel n hf hb hbe hp hempty
    cases fuel with
    | zero => omega
    | succ f =>
      have hb0 := hb n (le_refl n) (by omega)
      have hbe0 := hbe n (le_refl n) (by omega)
      simp only [Nat.add_zero] at hempty
      simp only [listLoop, hb0, hbe0, Bool.false_eq_true, if_false, hempty,
        pagesFrom, Nat.add_zero]
      by_cases h0 : (n == 0 && !s) = true
      · simp [h0]
      · simp only [Bool.not_eq_true] at h0
        simp [h0]
  | succ k' ih =>
    intro fuel n hf hb hbe hp hempty
    cases fuel with
    | zero => omega
    | succ f =>
      have hb0 := hb n (le_refl n) (by omega)
      have hbe0 := hbe n (le_refl n) (by omega)
      obtain ⟨hpn, hne⟩ := hp n (le_refl n) (by omega)
      simp only [listLoop, hb0, hbe0, Bool.false_eq_true, if_false, hpn]
      cases hpn' : pages n with
      | nil => exact absurd hpn' hne
      | cons x xs =>
        have hsh : (n + 1) + k' = n + (k' + 1) := by omega
        have hrec := ih f (n + 1) (by omega)
          (fun m h1 h2 => hb m (by omega) (by omega))
          (fun m h1 h2 => hbe m (by omega) (by omega))
          (fun m h1 h2 => hp m (by omega) (by omega))
          (by rw [hsh]; exact hempty)
        have hnz : ((n + 1) + k' == 0) = false := by
          simp only [beq_eq_false_iff_ne]
          omega
        have hnz2 : (n + (k' + 1) == 0) = false := by
          simp only [beq_eq_false_iff_ne]
          omega
        simp only [hrec, pagesFrom, hpn', hnz, hnz2, Bool.false_and,
          Bool.false_eq_true, if_false]
        refine Prod.ext ?_ (Prod.ext ?_ rfl)
        · simp
        · simp only [Prod.fst, Prod.snd]
          omega

theorem listLoop_break_step (env : ListEnv α) (s : Bool) (n fuel : Nat)
    (hbuild : env.buildExc n = Option.none)
    (hb : (env.paginationPresent && env.breakEarly n) = true) :
    listLoop env s n (fuel + 1) = ([], n, ListOutcome.success) := by
  simp [listLoop, hbuild, hb]

theorem get_list_empty_first (env : ListEnv α) (s : Bool)
    (hbuild : env.buildExc 0 = Option.none)
    (hbreak : (env.paginationPresent && env.breakEarly 0) = false)
    (hempty : env.page 0 = Except.ok []) :
    get_list_of_items env s
      = ([], 0, if !s then ListOutcome.emptyInBeginning
                else ListOutcome.success) := by
  have h := listLoop_empty_at env s (fun _ => []) 0 MAX_ITERATIONS 0
    (by norm_num [MAX_ITERATIONS])
    (fun m h1 h2 => by
      have hm : m = 0 := by omega
      rw [hm]; exact hbuild)
    (fun m h1 h2 => by
      have hm : m = 0 := by omega
      rw [hm]; exact hbreak)
    (fun m h1 h2 => absurd h2 (by omega))
    (by simpa using hempty)
  simpa [get_list_of_items, pagesFrom] using h

theorem loadListAux_length (enrich : α → Except String β) (l : List α) :
    (loadListAux enrich l).length = l.length := by
  induction l with
  | nil => rfl
  | cons r rs ih => simp [loadListAux, ih]

theorem loadListAux_get_error (enrich : α → Except String β) (l : List α)
    (i : Nat) (r : α) (e : String) (hr : l.get? i = some r)
    (he : enrich r = Except.error e) :
    (loadListAux enrich l).get? i = some (Sum.inr (r, e)) := by
  induction l generalizing i with
  | nil => simp at hr
  | cons x xs ih =>
    cases i with
    | zero =>
      simp only [List.get?] at hr
      cases hr
      simp [loadListAux, he]
    | succ j =>
      simp only [List.get?] at hr
      simpa [loadListAux] using ih j hr

/-! ## C1: the 1000-iteration ceiling -/

/-- C1: the pagination loop executes at most `MAX_ITERATIONS = 1000`
iterations for every environment (first conjunct, `envAll` arbitrary); and
when no iteration below 1000 terminates the loop — no build exception, no
break-early, every page fetched successfully and non-empty — the run raises
the max-iteration outcome with the counter at exactly 1000. -/
theorem c1_pagination_bounded (env envAll : ListEnv α) (s sAll : Bool)
    (pages : Nat → List α)
    (h : ∀ m, m < MAX_ITERATIONS →
      env.buildExc m = Option.none
      ∧ (env.paginationPresent && env.breakEarly m) = false
      ∧ env.page m = Except.ok (pages m) ∧ pages m ≠ []) :
    (get_list_of_items envAll sAll).2.1 ≤ MAX_ITERATIONS
    ∧ (get_list_of_items env s).2.2 = ListOutcome.maxIteration
    ∧ (get_list_of_items env s).2.1 = MAX_ITERATIONS := by
  have hbound := listLoop_iter_le envAll sAll MAX_ITERATIONS 0
  have hrun := listLoop_all_nonempty env s pages MAX_ITERATIONS 0
    (fun m h1 h2 => h m (by rwa [Nat.zero_add] at h2))
  refine ⟨by simpa [get_list_of_items] using hbound, ?_, ?_⟩
  · simp [get_list_of_items, hrun]
  · simp [get_list_of_items, hrun]

/-- C1 witness: a configuration answering a non-empty page forever reaches
the max-iteration outcome at counter 1000; the bound conjunct is
instantiated at the same environment. -/
theorem c1_pagination_bounded_witness :
    (get_list_of_items (⟨false, fun _ => false, fun _ => Option.none,
        fun _ => Except.ok [0]⟩ : ListEnv Nat) false).2.1 ≤ MAX_ITERATIONS
    ∧ (get_list_of_items (⟨false, fun _ => false, fun _ => Option.none,
        fun _ => Except.ok [0]⟩ : ListEnv Nat) true).2.2
      = ListOutcome.maxIteration
    ∧ (get_list_of_items (⟨false, fun _ => false, fun _ => Option.none,
        fun _ => Except.ok [0]⟩ : ListEnv Nat) true).2.1 = MAX_ITERATIONS :=
  c1_pagination_bounded _ _ true false (fun _ => [0])
    (fun m _ => ⟨rfl, rfl, rfl, by simp⟩)

/-! ## C2: empty-page semantics -/

/-- C2: if iterations 0..k-1 return the non-empty pages `pages 0..k-1` and
iteration k renders an empty result (with no build exception or break-early
up to k), then the run emits exactly the concatenation of those pages and:
at k = 0 without tolerance it raises the empty-at-start outcome, while at
k = 0 with tolerance, or at any k > 0, it terminates normally. -/
theorem c2_empty_page (env : ListEnv α) (skipEmpty : Bool) (k : Nat)
    (pages : Nat → List α)
    (hk : k < MAX_ITERATIONS)
    (hbuild : ∀ m, m ≤ k → env.buildExc m = Option.none)
    (hbreak : ∀ m, m ≤ k → (env.paginationPresent && env.breakEarly m) = false)
    (hpages : ∀ m, m < k → env.page m = Except.ok (pages m) ∧ pages m ≠ [])
    (hempty : env.page k = Except.ok []) :
    (get_list_of_items env skipEmpty).1 = pagesFrom pages 0 k
    ∧ (get_list_of_items env skipEmpty).2.2
      = (if k == 0 && !skipEmpty then ListOutcome.emptyInBeginning
         else ListOutcome.success) := by
  have h := listLoop_empty_at env skipEmpty pages k MAX_ITERATIONS 0 hk
    (fun m h1 h2 => hbuild m (by omega))
    (fun m h1 h2 => hbreak m (by omega))
    (fun m h1 h2 => hpages m (by omega))
    (by simpa using hempty)
  constructor
  · simp [get_list_of_items, h]
  · simp [get_list_of_items, h]

/-- C2 witness: one non-empty page `[7]` followed by an empty page at
iteration 1 yields exactly `[7]` and terminates normally; instantiating the
theorem at k = 1 discharges all hypotheses concretely. -/
theorem c2_empty_page_witness :
    (get_list_of_items (⟨false, fun _ => false, fun _ => Option.none,
        fun n => if n == 0 then Except.ok [7] else Except.ok []⟩ : ListEnv Nat)
      false).1 = pagesFrom (fun _ => [7]) 0 1
    ∧ (get_list_of_items (⟨false, fun _ => false, fun _ => Option.none,
        fun n => if n == 0 then Except.ok [7] else Except.ok []⟩ : ListEnv Nat)
      false).2.2
      = (if 1 == 0 && !false then ListOutcome.emptyInBeginning
         else ListOutcome.success) :=
  c2_empty_page _ false 1 (fun _ => [7]) (by norm_num [MAX_ITERATIONS])
    (fun m hm => rfl) (fun m hm => rfl)
    (fun m hm => by
      have : m = 0 := by omega
      subst this
      exact ⟨rfl, by simp⟩)
    rfl

/-! ## C10: break-early at iteration 0 bypasses the empty-start check -/

/-- C10: with a pagination rule set present and the break-early predicate
rendering true at iteration 0 (and `build_call_specs` not raising), the run
terminates normally with zero records for every tolerance flag — in
particular the empty-at-start outcome is never raised, whatever page 0
would have contained. -/
theorem c10_break_early_first (env : ListEnv α) (skipEmpty : Bool)
    (hpag : env.paginationPresent = true)
    (hbe : env.breakEarly 0 = true)
    (hbuild : env.buildExc 0 = Option.none) :
    (get_list_of_items env skipEmpty).1 = []
    ∧ (get_list_of_items env skipEmpty).2.2 = ListOutcome.success := by
  have h1 : MAX_ITERATIONS = 999 + 1 := rfl
  have h := listLoop_break_step env skipEmpty 0 999 hbuild
    (by simp [hpag, hbe])
  constructor
  · simp [get_list_of_items, h1, h]
  · simp [get_list_of_items, h1, h]

/-- C10 witness: pagination present, break-early true at iteration 0, the
page oracle answering an empty page and tolerance off — the exact situation
in which the empty-start outcome would otherwise fire — still ends in
normal termination with no records. -/
theorem c10_break_early_first_witness :
    (get_list_of_items (⟨true, fun _ => true, fun _ => Option.none,
        fun _ => Except.ok ([] : List Nat)⟩ : ListEnv Nat) false).1 = []
    ∧ (get_list_of_items (⟨true, fun _ => true, fun _ => Option.none,
        fun _ => Except.ok ([] : List Nat)⟩ : ListEnv Nat) false).2.2
      = ListOutcome.success :=
  c10_break_early_first _ false rfl rfl rfl

/-! ## C5: per-record enrichment failures are isolated -/

/-- C5: in `_load_list`, a record whose enrichment raises a phase-specific
exception is emitted as the pair (original record, error text) at its own
position; the output stream has one item per record of the pagination run
(so the remaining records are still processed) and the run's terminal
outcome is untouched by enrichment failures. -/
theorem c5_enrichment_isolated (env : ListEnv α) (skipEmpty : Bool)
    (enrich : α → Except String β) (i : Nat) (r : α) (e : String)
    (hr : (get_list_of_items env skipEmpty).1.get? i = some r)
    (he : enrich r = Except.error e) :
    (load_list env skipEmpty enrich).1.get? i = some (Sum.inr (r, e))
    ∧ (load_list env skipEmpty enrich).1.length
      = (get_list_of_items env skipEmpty).1.length
    ∧ (load_list env skipEmpty enrich).2
      = (get_list_of_items env skipEmpty).2.2 := by
  refine ⟨?_, ?_, rfl⟩
  · exact loadListAux_get_error enrich _ i r e hr he
  · exact loadListAux_length enrich _

/-- C5 witness: a two-record page where enrichment fails on the first
record: the output holds the degraded pair at position 0 and still has one
item per record. -/
theorem c5_enrichment_isolated_witness :
    (load_list (⟨false, fun _ => false, fun _ => Option.none,
        fun n => if n == 0 then Except.ok [1, 2] else Except.ok []⟩ : ListEnv Nat)
      false
      (fun r => if r == 1 then Except.error "boom" else Except.ok r)).1.get? 0
      = some (Sum.inr (1, "boom"))
    ∧ (load_list (⟨false, fun _ => false, fun _ => Option.none,
        fun n => if n == 0 then Except.ok [1, 2] else Except.ok []⟩ : ListEnv Nat)
      false
      (fun r => if r == 1 then Except.error "boom" else Except.ok r)).1.length
      = (get_list_of_items (⟨false, fun _ => false, fun _ => Option.none,
        fun n => if n == 0 then Except.ok [1, 2] else Except.ok []⟩ : ListEnv Nat)
        false).1.length
    ∧ (load_list (⟨false, fun _ => false, fun _ => Option.none,
        fun n => if n == 0 then Except.ok [1, 2] else Except.ok []⟩ : ListEnv Nat)
      false
      (fun r => if r == 1 then Except.error "boom" else Except.ok r)).2
      = (get_list_of_items (⟨false, fun _ => false, fun _ => Option.none,
        fun n => if n == 0 then Except.ok [1, 2] else Except.ok []⟩ : ListEnv Nat)
        false).2.2 :=
  c5_enrichment_isolated _ false _ 0 1 "boom" rfl rfl

/-! ## C4 and C7: the credential-rotation driver -/

theorem iamRotLoop_success (enrich : α → Except String β) :
    ∀ (credEnvs : List (ListEnv α)) (it recs : Nat),
      (∀ env, env ∈ credEnvs →
        (load_list env true enrich).2 = ListOutcome.success) →
      iamRotLoop enrich credEnvs it recs
        = Sum.inl
            (credEnvs.map (fun env => IamItem.passList (load_list env true enrich).1),
             recs + totalRotRecords credEnvs enrich) := by
  intro credEnvs
  induction credEnvs with
  | nil => intro it recs h; simp [iamRotLoop, totalRotRecords]
  | cons env rest ih =>
    intro it recs h
    have henv := h env (List.mem_cons_self env rest)
    have hrest := fun e he => h e (List.mem_cons_of_mem env he)
    simp only [iamRotLoop, henv]
    rw [ih (it + 1) (recs + (load_list env true enrich).1.length) hrest]
    have ht : totalRotRecords (env :: rest) enrich
        = (load_list env true enrich).1.length + totalRotRecords rest enrich := by
      simp [totalRotRecords]
    rw [ht]
    refine congrArg Sum.inl (Prod.ext rfl ?_)
    simp only [Prod.snd]
    omega

/-- C4: with every rotating-credential pass completing normally (each pass
runs `_load_list` with tolerance forced to true) and the default
environment answering an empty first page, the credential-rotation run ends
in the empty-at-start outcome exactly when the rotating passes together
yielded zero items, and in normal termination when they yielded at least
one; the stream then consists of exactly the tolerant rotating passes. -/
theorem c4_rotation_tolerance (credEnvs : List (ListEnv α))
    (defaultEnv : ListEnv α) (enrich : α → Except String β)
    (hrot : ∀ env, env ∈ credEnvs →
      (load_list env true enrich).2 = ListOutcome.success)
    (hbuild : defaultEnv.buildExc 0 = Option.none)
    (hbreak : (defaultEnv.paginationPresent && defaultEnv.breakEarly 0) = false)
    (hempty : defaultEnv.page 0 = Except.ok ([] : List α)) :
    (load_iam_list credEnvs defaultEnv enrich).2
      = (if 0 < totalRotRecords credEnvs enrich then ListOutcome.success
         else ListOutcome.emptyInBeginning)
    ∧ (load_iam_list credEnvs defaultEnv enrich).1
      = credEnvs.map (fun env => IamItem.passList (load_list env true enrich).1) := by
  have hloop := iamRotLoop_success enrich credEnvs 0 0 hrot
  have hdef := get_list_empty_first defaultEnv
    (decide (0 < totalRotRecords credEnvs enrich)) hbuild hbreak hempty
  constructor
  · simp only [load_iam_list, hloop, Nat.zero_add, load_list]
    rw [hdef]
    by_cases ht : 0 < totalRotRecords credEnvs enrich
    · simp [ht]
    · simp [ht]
  · simp only [load_iam_list, hloop, Nat.zero_add, load_list]
    rw [hdef]
    simp [loadListAux]

/-- C4 witness: one rotating pass over an environment whose first page is
already empty — tolerated, zero items — followed by the default pass on an
empty first page: the run ends in the empty-at-start outcome and the stream
is the single tolerated (empty) pass. -/
theorem c4_rotation_tolerance_witness :
    (load_iam_list [(⟨false, fun _ => false, fun _ => Option.none,
        fun _ => Except.ok ([] : List Nat)⟩ : ListEnv Nat)]
      (⟨false, fun _ => false, fun _ => Option.none,
        fun _ => Except.ok ([] : List Nat)⟩ : ListEnv Nat)
      (fun r => Except.ok r)).2
      = (if 0 < totalRotRecords [(⟨false, fun _ => false, fun _ => Option.none,
            fun _ => Except.ok ([] : List Nat)⟩ : ListEnv Nat)]
            (fun r => Except.ok r)
         then ListOutcome.success else ListOutcome.emptyInBeginning)
    ∧ (load_iam_list [(⟨false, fun _ => false, fun _ => Option.none,
        fun _ => Except.ok ([] : List Nat)⟩ : ListEnv Nat)]
      (⟨false, fun _ => false, fun _ => Option.none,
        fun _ => Except.ok ([] : List Nat)⟩ : ListEnv Nat)
      (fun r => Except.ok r)).1
      = [(⟨false, fun _ => false, fun _ => Option.none,
          fun _ => Except.ok ([] : List Nat)⟩ : ListEnv Nat)].map
          (fun env => IamItem.passList (load_list env true (fun r => Except.ok r)).1) :=
  c4_rotation_tolerance _ _ _
    (fun env he => by rw [List.mem_singleton.mp he]; rfl) rfl rfl rfl

/-- C7 counterexample: a rotating pass producing the two records 1 and 2 is
handed to the consumer as the single materialized list item
`IamItem.passList [...]` (managed.py lines 392-393), so not every yielded
item is a single record or single (record, error) pair, contradicting the
claim. -/
theorem c7_counterexample :
    (load_iam_list [(⟨false, fun _ => false, fun _ => Option.none,
        fun n => if n == 0 then Except.ok [1, 2]
                 else Except.ok ([] : List Nat)⟩ : ListEnv Nat)]
      (⟨false, fun _ => false, fun _ => Option.none,
        fun _ => Except.ok ([] : List Nat)⟩ : ListEnv Nat)
      (fun r => Except.ok r)).1
      = [IamItem.passList [Sum.inl 1, Sum.inl 2]]
    ∧ ((load_iam_list [(⟨false, fun _ => false, fun _ => Option.none,
        fun n => if n == 0 then Except.ok [1, 2]
                 else Except.ok ([] : List Nat)⟩ : ListEnv Nat)]
      (⟨false, fun _ => false, fun _ => Option.none,
        fun _ => Except.ok ([] : List Nat)⟩ : ListEnv Nat)
      (fun r => Except.ok r)).1.all
        (fun item => match item with
          | IamItem.single _ => true
          | IamItem.passList _ => false)) = false :=
  ⟨rfl, rfl⟩

/-- C7 (amended): on the plain pagination path every stream item is one
record or one degraded pair — the enriched stream has exactly one item per
record of the run — while on the credential-rotation path each rotating
pass is materialized and yielded as one list item and only the final
default pass is yielded item by item. -/
theorem c7_lazy_per_record (credEnvs : List (ListEnv α))
    (defaultEnv plainEnv : ListEnv α) (s : Bool) (enrich : α → Except String β)
    (hrot : ∀ env, env ∈ credEnvs →
      (load_list env true enrich).2 = ListOutcome.success) :
    (load_iam_list credEnvs defaultEnv enrich).1
      = credEnvs.map (fun env => IamItem.passList (load_list env true enrich).1)
        ++ (load_list defaultEnv (decide (0 < totalRotRecords credEnvs enrich))
            enrich).1.map IamItem.single
    ∧ (load_list plainEnv s enrich).1.length
      = (get_list_of_items plainEnv s).1.length := by
  have hloop := iamRotLoop_success enrich credEnvs 0 0 hrot
  constructor
  · simp only [load_iam_list, hloop, Nat.zero_add]
  · exact loadListAux_length enrich _

/-- C7 amended-claim witness: the structure theorem applied to one rotating
pass of two records and a default pass of one record. -/
theorem c7_lazy_per_record_witness :
    (load_iam_list [(⟨false, fun _ => false, fun _ => Option.none,
        fun n => if n == 0 then Except.ok [3, 4]
                 else Except.ok ([] : List Nat)⟩ : ListEnv Nat)]
      (⟨false, fun _ => false, fun _ => Option.none,
        fun n => if n == 0 then Except.ok [9]
                 else Except.ok ([] : List Nat)⟩ : ListEnv Nat)
      (fun r => Except.ok r)).1
      = [(⟨false, fun _ => false, fun _ => Option.none,
          fun n => if n == 0 then Except.ok [3, 4]
                   else Except.ok ([] : List Nat)⟩ : ListEnv Nat)].map
          (fun env => IamItem.passList (load_list env true (fun r => Except.ok r)).1)
        ++ (load_list (⟨false, fun _ => false, fun _ => Option.none,
            fun n => if n == 0 then Except.ok [9]
                     else Except.ok ([] : List Nat)⟩ : ListEnv Nat)
            (decide (0 < totalRotRecords
              [(⟨false, fun _ => false, fun _ => Option.none,
                fun n => if n == 0 then Except.ok [3, 4]
                         else Except.ok ([] : List Nat)⟩ : ListEnv Nat)]
              (fun r => Except.ok r)))
            (fun r => Except.ok r)).1.map IamItem.single
    ∧ (load_list (⟨false, fun _ => false, fun _ => Option.none,
        fun n => if n == 0 then Except.ok [3, 4]
                 else Except.ok ([] : List Nat)⟩ : ListEnv Nat) true
        (fun r => Except.ok r)).1.length
      = (get_list_of_items (⟨false, fun _ => false, fun _ => Option.none,
          fun n => if n == 0 then Except.ok [3, 4]
                   else Except.ok ([] : List Nat)⟩ : ListEnv Nat) true).1.length :=
  c7_lazy_per_record _ _ _ true _
    (fun env he => by rw [List.mem_singleton.mp he]; rfl)

